import Mathlib

/-!
Verification of the OCI instance-provisioner module (`img_proof/ipa_oci.py`).

The module drives a cloud provider's control plane: it creates a network
stack (virtual network, subnet, internet gateway, route rule), launches a
compute instance into the stack's subnet, exposes start/stop/terminate
lifecycle operations, and resolves the instance's address from its VNIC
attachments.

The embedding below renders the provider as an explicit environment of
pure functions (`CloudEnv`) and renders every mutating or polling call as
an `Event` appended to a trace, so that ordering and idempotent-delete
properties become statements about the produced trace.  The provisioner
object itself (`OCICloud`) is passed and returned explicitly; operations
return an `Except` outcome together with the (possibly partially) updated
object and the trace of provider calls made before returning or raising.

Python is dynamically typed, and the module passes values of one shape to
code expecting another in a few places (the `_create_subnet` call site
swaps its first two arguments relative to the function's own parameter
list; `_get_subnet` returns the raw response object rather than its
`data`; `_clear_route_rules` receives a VCN id where its body reads
attributes of a VCN object; `_start_instance` invokes `instance_action`
on the instance data model).  At exactly those seams the embedding types
the flowing value as a sum (`PyObj`) or keeps the response wrapper, and
renders attribute access as a partial operation that raises
`AttributeError` when the attribute is absent, which is Python's
semantics.  Everywhere else values are typed by the single shape that
actually flows there.
-/

deriving instance DecidableEq for Except

namespace ImgProof

/-- A virtual cloud network, as returned by the provider (`Vcn` model). -/
structure Vcn where
  id : String
  compartment_id : String
  cidr_block : String
  display_name : String
  default_route_table_id : String
deriving DecidableEq, Repr

/-- A subnet, as returned by the provider (`Subnet` model). -/
structure Subnet where
  id : String
  vcn_id : String
  compartment_id : String
  display_name : String
  cidr_block : String
deriving DecidableEq, Repr

/-- An internet gateway, as returned by the provider. -/
structure InternetGateway where
  id : String
  display_name : String
deriving DecidableEq, Repr

/-- A route rule mapping a destination CIDR block to a network entity. -/
structure RouteRule where
  cidr_block : String
  network_entity_id : String
deriving DecidableEq, Repr

/-- A route table: the list of its route rules. -/
structure RouteTable where
  route_rules : List RouteRule
deriving DecidableEq, Repr

/-- A virtual network interface with its optional addresses. -/
structure Vnic where
  public_ip : Option String
  private_ip : Option String
deriving DecidableEq, Repr

/-- The association between an instance and a VNIC. -/
structure VnicAttachment where
  vnic_id : String
  subnet_id : String
deriving DecidableEq, Repr

/-- A compute instance, as returned by the provider (`Instance` model).
`source_image_id` renders `instance.source_details.image_id`. -/
structure Instance where
  id : String
  display_name : String
  compartment_id : String
  lifecycle_state : String
  source_image_id : String
deriving DecidableEq, Repr

/-- An SDK response wrapper: the model object sits in its `data` field.
The wrapper itself exposes no model attribute such as `display_name`. -/
structure Response (α : Type) where
  data : α
deriving DecidableEq, Repr

/-- Errors an operation can raise.  `cloudException` renders the module's
`OCICloudException` (the spec's `ProvisionError`); `attributeError`
renders Python's `AttributeError` on a missing attribute. -/
inductive PyError where
  | cloudException (msg : String)
  | attributeError (msg : String)
deriving DecidableEq, Repr

/-- A dynamically typed Python value at the call seams where the source
passes either a plain string or a `Vcn` object into the same parameter. -/
inductive PyObj where
  | str (s : String)
  | vcnObj (v : Vcn)
deriving DecidableEq, Repr

/-- Python attribute access `x.compartment_id` on a dynamic value: present
on a `Vcn` object, absent on a string. -/
def PyObj.compartment_id : PyObj → Except PyError String
  | .vcnObj v => .ok v.compartment_id
  | .str _ => .error (.attributeError "str object has no attribute compartment_id")

/-- Python attribute access `x.id` on a dynamic value. -/
def PyObj.id : PyObj → Except PyError String
  | .vcnObj v => .ok v.id
  | .str _ => .error (.attributeError "str object has no attribute id")

/-- Python attribute access `x.cidr_block` on a dynamic value. -/
def PyObj.cidr_block : PyObj → Except PyError String
  | .vcnObj v => .ok v.cidr_block
  | .str _ => .error (.attributeError "str object has no attribute cidr_block")

/-- Python attribute access `x.default_route_table_id` on a dynamic value. -/
def PyObj.default_route_table_id : PyObj → Except PyError String
  | .vcnObj v => .ok v.default_route_table_id
  | .str _ => .error (.attributeError "str object has no attribute default_route_table_id")

/-- Python attribute access `response.display_name` on an SDK response
wrapper: a response only carries the model in `data`, so the access
raises `AttributeError` (the source omitted `.data` in `_get_subnet`). -/
def Response.display_name (_ : Response Subnet) : Except PyError String :=
  .error (.attributeError "Response object has no attribute display_name")

/-- Python attribute access `response.vcn_id` on an SDK response wrapper:
absent for the same reason as `Response.display_name`. -/
def Response.vcn_id (_ : Response Subnet) : Except PyError String :=
  .error (.attributeError "Response object has no attribute vcn_id")

/-- Python method call `instance.instance_action(action)`: the `Instance`
data model is a plain record of fields (the start/stop action lives on
the compute service client, per the external-interface contract), so the
attribute lookup raises `AttributeError`. -/
def Instance.instance_action (_ : Instance) (_ : String) : Except PyError Unit :=
  .error (.attributeError "Instance object has no attribute instance_action")

/-- Argument record of `oci.core.models.CreateVcnDetails` as the module
builds it.  `compartment_id` is the provisioner's configured compartment,
which may be absent. -/
structure CreateVcnDetails where
  cidr_block : String
  display_name : String
  compartment_id : Option String
deriving DecidableEq, Repr

/-- Argument record of `CreateSubnetDetails` as the module builds it.  The
`availability_domain` field holds whatever dynamic value flowed into the
`availability_domain` parameter of `_create_subnet`. -/
structure CreateSubnetDetails where
  compartment_id : String
  availability_domain : PyObj
  display_name : String
  vcn_id : String
  cidr_block : String
deriving DecidableEq, Repr

/-- Argument record of `CreateInternetGatewayDetails` as the module builds it. -/
structure CreateInternetGatewayDetails where
  display_name : String
  compartment_id : String
  is_enabled : Bool
  vcn_id : String
deriving DecidableEq, Repr

/-- Argument record of `LaunchInstanceDetails` as the module builds it.
`metadata_user_data` renders `metadata['user_data']`; `source_image_id`
renders `InstanceSourceViaImageDetails(image_id=...)`; `subnet_id` renders
`CreateVnicDetails(subnet_id=...)`. -/
structure LaunchInstanceDetails where
  display_name : String
  compartment_id : Option String
  availability_domain : String
  shape : String
  metadata_user_data : String
  source_image_id : Option String
  subnet_id : String
deriving DecidableEq, Repr

/-- One observable provider interaction: a mutating control-plane call or
a polling wait.  `wait_until res id st nf` renders
`oci.wait_until(client, get_res(id), lifecycle_state, st,
succeed_on_not_found=nf)`; `wait_on_instance st t` renders the base
framework's bounded poll `_wait_on_instance(st, t)`. -/
inductive Event where
  | create_vcn (d : CreateVcnDetails)
  | create_subnet (d : CreateSubnetDetails)
  | create_internet_gateway (d : CreateInternetGatewayDetails)
  | update_route_table (rt_id : String) (rules : List RouteRule)
  | launch_instance (d : LaunchInstanceDetails)
  | terminate_instance (inst_id : String)
  | delete_internet_gateway (gateway_id : String)
  | delete_subnet (subnet_id : String)
  | delete_vcn (vcn_id : String)
  | wait_until (resource : String) (id : String) (lifecycle_state : String)
      (succeed_on_not_found : Bool)
  | wait_on_instance (lifecycle_state : String) (timeout : Nat)
deriving DecidableEq, Repr

/-- The provider control plane and the external library calls, as a record
of pure functions: `create_*` yield the resource data the provider would
return for the given details, `get_*`/`list_*` are read queries, and
`get_instance` may fail in an arbitrary provider-determined way (the
failure payload is an uninterpreted string).  `generate_instance_name`
renders `ipa_utils.generate_instance_name`, `user_data` the base
framework's `_get_user_data()`, and `b64encode` the `base64` library. -/
structure CloudEnv where
  generate_instance_name : String → String
  user_data : String
  b64encode : String → String
  create_vcn : CreateVcnDetails → Vcn
  create_subnet : CreateSubnetDetails → Subnet
  create_internet_gateway : CreateInternetGatewayDetails → InternetGateway
  get_route_table : String → RouteTable
  get_subnet : String → Subnet
  get_instance : String → Except String Instance
  list_vnic_attachments : String → String → List VnicAttachment
  get_vnic : String → Vnic
  list_internet_gateways : Option String → String → List InternetGateway
  launch_instance : LaunchInstanceDetails → Instance

/-- The provisioner object: the per-run configuration stored by
`OCICloud.__init__` plus the two fields later operations assign
(`running_instance_id`, `instance_ip`). -/
structure OCICloud where
  availability_domain : String
  ssh_user : String
  compartment_id : Option String
  subnet_id : Option String
  ssh_private_key_file : String
  instance_type : Option String
  image_id : Option String
  timeout : Nat
  running_instance_id : String
  instance_ip : Option String
deriving DecidableEq, Repr

/-- Modelled from the spec: the default SSH user constant
(`OCI_DEFAULT_USER` lives in the excluded constants module; its value is
immaterial to every claim). -/
def OCI_DEFAULT_USER : String := "opc"

/-- Modelled from the spec: the default instance shape constant
(`OCI_DEFAULT_TYPE` lives in the excluded constants module; the spec's
example shape is used, and its value is immaterial to every claim). -/
def OCI_DEFAULT_TYPE : String := "VM.Standard2.1"

/-- Constructor arguments of `OCICloud.__init__` that the module reads
(absent arguments are `none`, rendering Python's `None`). -/
structure InitArgs where
  availability_domain : Option String
  compartment_id : Option String
  subnet_id : Option String
  ssh_private_key_file : Option String
  ssh_user : Option String
  instance_type : Option String
  image_id : Option String
  timeout : Nat
  running_instance_id : String
deriving DecidableEq, Repr

/-- The configuration file values the constructor consults
(`self.ipa_config[...]`).  `ssh_private_key_file` is resolved by the
excluded `IpaCloud` base class; modelled from the spec: the framework
supplies the SSH key path from run-scoped configuration when the argument
is absent. -/
structure IpaConfig where
  availability_domain : Option String
  compartment_id : Option String
  subnet_id : Option String
  ssh_private_key_file : Option String
deriving DecidableEq, Repr

/-- `OCICloud.__init__`: resolves availability domain (argument, else
configuration) and raises if absent; defaults the SSH user; stores the
compartment and subnet identifiers (argument, else configuration) without
checking them; raises if no SSH private key file was resolved. -/
def OCICloud.init (args : InitArgs) (cfg : IpaConfig) : Except PyError OCICloud :=
  match args.availability_domain <|> cfg.availability_domain with
  | none => .error (.cloudException "Availability domain is required to connect to OCI.")
  | some ad =>
    let ssh_user := args.ssh_user.getD OCI_DEFAULT_USER
    let compartment_id := args.compartment_id <|> cfg.compartment_id
    let subnet_id := args.subnet_id <|> cfg.subnet_id
    match args.ssh_private_key_file <|> cfg.ssh_private_key_file with
    | none => .error (.cloudException "SSH private key file is required to connect to instance.")
    | some key =>
      .ok
        { availability_domain := ad
          ssh_user := ssh_user
          compartment_id := compartment_id
          subnet_id := subnet_id
          ssh_private_key_file := key
          instance_type := args.instance_type
          image_id := args.image_id
          timeout := args.timeout
          running_instance_id := args.running_instance_id
          instance_ip := none }

/-- `_create_vcn`: builds `CreateVcnDetails` with the default CIDR block,
issues the create call and waits for the VCN to reach `AVAILABLE`. -/
def OCICloud._create_vcn (env : CloudEnv) (self : OCICloud) (display_name : String) :
    Vcn × List Event :=
  let cidr_block := "10.0.0.0/29"
  let details : CreateVcnDetails :=
    { cidr_block := cidr_block
      display_name := display_name ++ "-vnet"
      compartment_id := self.compartment_id }
  let vcn := env.create_vcn details
  (vcn, [.create_vcn details, .wait_until "vcn" vcn.id "AVAILABLE" false])

/-- `_create_subnet(availability_domain, vcn, display_name)`: reads
`vcn.compartment_id`, `vcn.id` and `vcn.cidr_block` (dynamic attribute
accesses, in the source's keyword-argument order), builds the details,
issues the create call and waits for `AVAILABLE`.  Both object parameters
are dynamic because the module's only call site passes them swapped. -/
def OCICloud._create_subnet (env : CloudEnv) (availability_domain vcn : PyObj)
    (display_name : String) : Except PyError Subnet × List Event :=
  match vcn.compartment_id with
  | .error e => (.error e, [])
  | .ok cid =>
    match vcn.id with
    | .error e => (.error e, [])
    | .ok vid =>
      match vcn.cidr_block with
      | .error e => (.error e, [])
      | .ok cb =>
        let details : CreateSubnetDetails :=
          { compartment_id := cid
            availability_domain := availability_domain
            display_name := display_name ++ "-subnet"
            vcn_id := vid
            cidr_block := cb }
        let subnet := env.create_subnet details
        (.ok subnet,
          [.create_subnet details, .wait_until "subnet" subnet.id "AVAILABLE" false])

/-- `_add_route_rule_to_gateway`: reads the VCN's default route table,
appends the `0.0.0.0/0 → gateway` rule, updates the table and waits for
`AVAILABLE`.  (The source returns the waited table; its caller discards
it, so only the trace is kept.) -/
def OCICloud._add_route_rule_to_gateway (env : CloudEnv)
    (internet_gateway : InternetGateway) (vcn : Vcn) : List Event :=
  let result := env.get_route_table vcn.default_route_table_id
  let route_rules := result.route_rules ++
    [{ cidr_block := "0.0.0.0/0", network_entity_id := internet_gateway.id }]
  [.update_route_table vcn.default_route_table_id route_rules,
   .wait_until "route_table" vcn.default_route_table_id "AVAILABLE" false]

/-- `_create_internet_gateway`: creates the gateway, waits for
`AVAILABLE`, then adds the default route rule to the VCN's route table. -/
def OCICloud._create_internet_gateway (env : CloudEnv) (vcn : Vcn)
    (display_name : String) : InternetGateway × List Event :=
  let details : CreateInternetGatewayDetails :=
    { display_name := display_name ++ "-gateway"
      compartment_id := vcn.compartment_id
      is_enabled := true
      vcn_id := vcn.id }
  let internet_gateway := env.create_internet_gateway details
  (internet_gateway,
    [.create_internet_gateway details,
     .wait_until "internet_gateway" internet_gateway.id "AVAILABLE" false] ++
    OCICloud._add_route_rule_to_gateway env internet_gateway vcn)

/-- `_delete_internet_gateway`: delete, then wait for `TERMINATED` with
`succeed_on_not_found=True`. -/
def OCICloud._delete_internet_gateway (gateway_id : String) : List Event :=
  [.delete_internet_gateway gateway_id,
   .wait_until "internet_gateway" gateway_id "TERMINATED" true]

/-- `_delete_vcn`: delete, then wait for `TERMINATED` with
`succeed_on_not_found=True`. -/
def OCICloud._delete_vcn (vcn_id : String) : List Event :=
  [.delete_vcn vcn_id, .wait_until "vcn" vcn_id "TERMINATED" true]

/-- `_delete_subnet`: delete, then wait for `TERMINATED` with
`succeed_on_not_found=True`. -/
def OCICloud._delete_subnet (subnet_id : String) : List Event :=
  [.delete_subnet subnet_id, .wait_until "subnet" subnet_id "TERMINATED" true]

/-- The loop of `_get_gateway_in_vcn_by_name`: first gateway whose display
name matches, else `None`. -/
def find_gateway_by_name : List InternetGateway → String → Option InternetGateway
  | [], _ => none
  | ig :: rest, display_name =>
    if ig.display_name == display_name then some ig
    else find_gateway_by_name rest display_name

/-- `_get_gateway_in_vcn_by_name`: lists the gateways of the VCN in the
configured compartment and scans them by display name. -/
def OCICloud._get_gateway_in_vcn_by_name (env : CloudEnv) (self : OCICloud)
    (vcn_id display_name : String) : Option InternetGateway :=
  find_gateway_by_name (env.list_internet_gateways self.compartment_id vcn_id) display_name

/-- `_clear_route_rules(vcn)`: reads `vcn.default_route_table_id` (a
dynamic attribute access, because `_terminate_instance` passes the VCN id
string rather than the VCN object), updates the table to an empty rule
list and waits for `AVAILABLE`. -/
def OCICloud._clear_route_rules (env : CloudEnv) (vcn : PyObj) :
    Except PyError Unit × List Event :=
  match vcn.default_route_table_id with
  | .error e => (.error e, [])
  | .ok rt_id =>
    (.ok (), [.update_route_table rt_id [],
              .wait_until "route_table" rt_id "AVAILABLE" false])

/-- `_get_subnet`: returns the raw `get_subnet` response (the source omits
`.data`). -/
def OCICloud._get_subnet (env : CloudEnv) (subnet_id : String) : Response Subnet :=
  { data := env.get_subnet subnet_id }

/-- `_get_instance`: fetches the instance by `running_instance_id`; any
provider failure whatsoever is re-raised as the single
`Instance with ID: <id> not found.` exception. -/
def OCICloud._get_instance (env : CloudEnv) (self : OCICloud) : Except PyError Instance :=
  match env.get_instance self.running_instance_id with
  | .ok inst => .ok inst
  | .error _ =>
    .error (.cloudException
      ("Instance with ID: " ++ self.running_instance_id ++ " not found."))

/-- `_get_vnic_attachments`: paginated listing of the instance's VNIC
attachments. -/
def OCICloud._get_vnic_attachments (env : CloudEnv)
    (compartment_id instance_id : String) : List VnicAttachment :=
  env.list_vnic_attachments compartment_id instance_id

/-- Modelled from the spec: the excluded `IpaCloud` base class's
`_wait_on_instance` is a bounded poll of the instance lifecycle state
until the expected value or the timeout, rendered as an observable wait
event. -/
def OCICloud._wait_on_instance (lifecycle_state : String) (timeout : Nat) : List Event :=
  [.wait_on_instance lifecycle_state timeout]

/-- Outcome of one provisioner operation: raised-or-returned, the
provisioner object after the call (mutations made before a raise are
kept, as in Python), and the trace of provider calls issued. -/
abbrev OpResult := Except PyError Unit × OCICloud × List Event

/-- `_launch_instance`: generates a display name, creates the VCN, calls
`_create_subnet(vcn, self.availability_domain, display_name)` — the
arguments land swapped in that function's `(availability_domain, vcn,
display_name)` parameter list, exactly as in the source — then the
gateway, then builds `LaunchInstanceDetails` (base64-encoded user data,
chosen shape, image, created subnet) and launches, storing the new
instance id and waiting for `RUNNING`. -/
def OCICloud._launch_instance (env : CloudEnv) (self : OCICloud) : OpResult :=
  let display_name := env.generate_instance_name "oci-ipa-test"
  let (vcn, t1) := OCICloud._create_vcn env self display_name
  match OCICloud._create_subnet env (.vcnObj vcn) (.str self.availability_domain)
      display_name with
  | (.error e, t2) => (.error e, self, t1 ++ t2)
  | (.ok subnet, t2) =>
    let (_, t3) := OCICloud._create_internet_gateway env vcn display_name
    let instance_metadata_user_data := env.b64encode env.user_data
    let details : LaunchInstanceDetails :=
      { display_name := display_name
        compartment_id := self.compartment_id
        availability_domain := self.availability_domain
        shape := self.instance_type.getD OCI_DEFAULT_TYPE
        metadata_user_data := instance_metadata_user_data
        source_image_id := self.image_id
        subnet_id := subnet.id }
    let resp := env.launch_instance details
    let self' : OCICloud := { self with running_instance_id := resp.id }
    (.ok (), self',
      t1 ++ t2 ++ t3 ++ [.launch_instance details] ++
      OCICloud._wait_on_instance "RUNNING" self'.timeout)

/-- `_set_image_id`: looks the instance up and overwrites `self.image_id`
with the instance's source image id. -/
def OCICloud._set_image_id (env : CloudEnv) (self : OCICloud) : OpResult :=
  match OCICloud._get_instance env self with
  | .error e => (.error e, self, [])
  | .ok inst => (.ok (), { self with image_id := some inst.source_image_id }, [])

/-- The loop of `_set_instance_ip`: walks the attachments, queries each
VNIC, and stops at the first attachment exposing a public or a private
address, with the public one preferred on that attachment. -/
def find_attachment_ip (env : CloudEnv) : List VnicAttachment → Option String
  | [] => none
  | attachment :: rest =>
    let vnic := env.get_vnic attachment.vnic_id
    match vnic.public_ip <|> vnic.private_ip with
    | some address => some address
    | none => find_attachment_ip env rest

/-- `_set_instance_ip`: looks the instance up, resets the cached address
to `None`, scans the VNIC attachments for an address, and raises when
none is found. -/
def OCICloud._set_instance_ip (env : CloudEnv) (self : OCICloud) : OpResult :=
  match OCICloud._get_instance env self with
  | .error e => (.error e, self, [])
  | .ok inst =>
    let self1 : OCICloud := { self with instance_ip := none }
    let vnic_attachments := OCICloud._get_vnic_attachments env inst.compartment_id inst.id
    match find_attachment_ip env vnic_attachments with
    | some address => (.ok (), { self1 with instance_ip := some address }, [])
    | none =>
      (.error (.cloudException "IP address for instance cannot be found."), self1, [])

/-- `_start_instance`: looks the instance up, then invokes
`instance.instance_action(START)` (a dynamic method access on the data
model, as in the source) and waits for `RUNNING`. -/
def OCICloud._start_instance (env : CloudEnv) (self : OCICloud) : OpResult :=
  match OCICloud._get_instance env self with
  | .error e => (.error e, self, [])
  | .ok inst =>
    match inst.instance_action "START" with
    | .error e => (.error e, self, [])
    | .ok _ => (.ok (), self, OCICloud._wait_on_instance "RUNNING" self.timeout)

/-- `_stop_instance`: looks the instance up, then invokes
`instance.instance_action(STOP)` and waits for `STOPPED`. -/
def OCICloud._stop_instance (env : CloudEnv) (self : OCICloud) : OpResult :=
  match OCICloud._get_instance env self with
  | .error e => (.error e, self, [])
  | .ok inst =>
    match inst.instance_action "STOP" with
    | .error e => (.error e, self, [])
    | .ok _ => (.ok (), self, OCICloud._wait_on_instance "STOPPED" self.timeout)

/-- The attachment loop of `_terminate_instance`: for each attachment,
fetch its subnet via `_get_subnet` and compare `subnet.display_name` (a
dynamic attribute access on the response wrapper) against
`<name>-subnet`; on a match, read `subnet.vcn_id`, look the gateway up by
`<name>-gateway` and stop. -/
def terminate_scan (env : CloudEnv) (self : OCICloud) (name : String) :
    List VnicAttachment → Except PyError (Option (String × String × Option InternetGateway))
  | [] => .ok none
  | attachment :: rest =>
    let subnet_id := attachment.subnet_id
    let subnet := OCICloud._get_subnet env subnet_id
    match subnet.display_name with
    | .error e => .error e
    | .ok dn =>
      if dn == name ++ "-subnet" then
        match subnet.vcn_id with
        | .error e => .error e
        | .ok vcn_id =>
          .ok (some (subnet_id, vcn_id,
            OCICloud._get_gateway_in_vcn_by_name env self vcn_id (name ++ "-gateway")))
      else
        terminate_scan env self name rest

/-- `_terminate_instance`: looks the instance up, terminates it and waits
for `TERMINATED` with `succeed_on_not_found=True`; then scans the
attachments for the run's subnet and, if found, clears the route rules
(passing the VCN id string, as in the source), deletes the gateway when
present, deletes the subnet, and deletes the VCN. -/
def OCICloud._terminate_instance (env : CloudEnv) (self : OCICloud) : OpResult :=
  match OCICloud._get_instance env self with
  | .error e => (.error e, self, [])
  | .ok inst =>
    let name := inst.display_name
    let t0 : List Event :=
      [.terminate_instance self.running_instance_id,
       .wait_until "instance" inst.id "TERMINATED" true]
    let vnic_attachments := OCICloud._get_vnic_attachments env inst.compartment_id inst.id
    match terminate_scan env self name vnic_attachments with
    | .error e => (.error e, self, t0)
    | .ok none => (.ok (), self, t0)
    | .ok (some (subnet_id, vcn_id, gateway)) =>
      match OCICloud._clear_route_rules env (.str vcn_id) with
      | (.error e, t1) => (.error e, self, t0 ++ t1)
      | (.ok _, t1) =>
        let t2 := match gateway with
          | some g => OCICloud._delete_internet_gateway g.id
          | none => []
        (.ok (), self,
          t0 ++ t1 ++ t2 ++ OCICloud._delete_subnet subnet_id ++
          OCICloud._delete_vcn vcn_id)

/-- The provisioner's operations after construction. -/
inductive CloudOp where
  | launch
  | start
  | stop
  | terminate
  | set_instance_ip
  | set_image_id
deriving DecidableEq, Repr

/-- Dispatch one provisioner operation. -/
def run_op : CloudOp → CloudEnv → OCICloud → OpResult
  | .launch, env, self => OCICloud._launch_instance env self
  | .start, env, self => OCICloud._start_instance env self
  | .stop, env, self => OCICloud._stop_instance env self
  | .terminate, env, self => OCICloud._terminate_instance env self
  | .set_instance_ip, env, self => OCICloud._set_instance_ip env self
  | .set_image_id, env, self => OCICloud._set_image_id env self

/-- The Provisioning Context fields of two provisioner objects coincide:
compartment, availability domain, subnet, shape, image, SSH credential,
timeout. -/
def sameContext (a b : OCICloud) : Prop :=
  a.compartment_id = b.compartment_id ∧
  a.availability_domain = b.availability_domain ∧
  a.subnet_id = b.subnet_id ∧
  a.instance_type = b.instance_type ∧
  a.image_id = b.image_id ∧
  a.ssh_private_key_file = b.ssh_private_key_file ∧
  a.timeout = b.timeout

instance (a b : OCICloud) : Decidable (sameContext a b) := by
  unfold sameContext
  infer_instance

/-- Modelled from the spec: `AddressNotFoundError` is the spec's name for
the exception `_set_instance_ip` raises when no attachment exposes an
address (the module raises its single exception class with this
message). -/
def AddressNotFoundError : PyError :=
  .cloudException "IP address for instance cannot be found."

/-! ### Concrete fixtures used by closed witnesses and counterexamples -/

/-- A concrete VCN the mock provider returns. -/
def vcn1 : Vcn :=
  { id := "vcn-1"
    compartment_id := "comp-1"
    cidr_block := "10.0.0.0/29"
    display_name := "oci-ipa-test-x-vnet"
    default_route_table_id := "rt-1" }

/-- A concrete subnet the mock provider returns; its display name matches
the generated instance name of the fixtures. -/
def subnet1 : Subnet :=
  { id := "sub-1"
    vcn_id := "vcn-1"
    compartment_id := "comp-1"
    display_name := "oci-ipa-test-x-subnet"
    cidr_block := "10.0.0.0/29" }

/-- A concrete instance the mock provider returns for id `i-1`. -/
def inst1 : Instance :=
  { id := "i-1"
    display_name := "oci-ipa-test-x"
    compartment_id := "comp-1"
    lifecycle_state := "RUNNING"
    source_image_id := "ocid1.image.new" }

/-- A concrete VNIC attachment. -/
def att1 : VnicAttachment := { vnic_id := "vnic-1", subnet_id := "sub-1" }

/-- A mock provider: deterministic resources, a known instance `i-1`, no
attachments, and a generic failure for any other instance id. -/
def envBase : CloudEnv :=
  { generate_instance_name := fun base => base ++ "-x"
    user_data := "bootstrap"
    b64encode := fun s => s ++ "-b64"
    create_vcn := fun _ => vcn1
    create_subnet := fun _ => subnet1
    create_internet_gateway := fun _ => { id := "ig-1", display_name := "oci-ipa-test-x-gateway" }
    get_route_table := fun _ => { route_rules := [] }
    get_subnet := fun _ => subnet1
    get_instance := fun iid => if iid == "i-1" then .ok inst1 else .error "service error"
    list_vnic_attachments := fun _ _ => []
    get_vnic := fun _ => { public_ip := none, private_ip := none }
    list_internet_gateways := fun _ _ => []
    launch_instance := fun _ => inst1 }

/-- A concrete provisioner object with no subnet supplied. -/
def cloud1 : OCICloud :=
  { availability_domain := "AD-1"
    ssh_user := "opc"
    compartment_id := some "comp-1"
    subnet_id := none
    ssh_private_key_file := "/root/.ssh/key"
    instance_type := some "VM.Standard2.1"
    image_id := some "ocid1.image.old"
    timeout := 600
    running_instance_id := "i-1"
    instance_ip := none }

/-- `envBase` with one attachment whose subnet carries the matching
display name `oci-ipa-test-x-subnet`. -/
def envAttach : CloudEnv :=
  { envBase with list_vnic_attachments := fun _ _ => [att1] }

/-- `envBase` with one attachment whose VNIC has both a public and a
private address. -/
def envBothAddr : CloudEnv :=
  { envBase with
    list_vnic_attachments := fun _ _ => [att1]
    get_vnic := fun _ => { public_ip := some "203.0.113.7", private_ip := some "10.0.0.9" } }

/-- `envBase` with one attachment whose VNIC has only a private address. -/
def envPrivAddr : CloudEnv :=
  { envBase with
    list_vnic_attachments := fun _ _ => [att1]
    get_vnic := fun _ => { public_ip := none, private_ip := some "10.0.0.9" } }

/-- `envBase` with two attachments: the first VNIC exposes only a private
address, the second exposes a public address. -/
def envTwoVnics : CloudEnv :=
  { envBase with
    list_vnic_attachments := fun _ _ =>
      [{ vnic_id := "vnic-A", subnet_id := "sub-1" },
       { vnic_id := "vnic-B", subnet_id := "sub-1" }]
    get_vnic := fun vid =>
      if vid == "vnic-A" then { public_ip := none, private_ip := some "10.0.0.2" }
      else { public_ip := some "203.0.113.9", private_ip := none } }

/-- The VNIC of an attachment exposes no address at all. -/
def no_address (env : CloudEnv) (a : VnicAttachment) : Prop :=
  (env.get_vnic a.vnic_id).public_ip = none ∧ (env.get_vnic a.vnic_id).private_ip = none

instance (env : CloudEnv) (a : VnicAttachment) : Decidable (no_address env a) := by
  unfold no_address
  infer_instance

/-- The VNIC of an attachment exposes some address, public or private. -/
def has_address (env : CloudEnv) (a : VnicAttachment) : Bool :=
  ((env.get_vnic a.vnic_id).public_ip <|> (env.get_vnic a.vnic_id).private_ip).isSome

/-- Every wait for `TERMINATED` occurring in the trace carries
`succeed_on_not_found`, i.e. a poll finding the resource already absent
completes as success. -/
def terminated_waits_not_found_ok (tr : List Event) : Prop :=
  ∀ r i nf, Event.wait_until r i "TERMINATED" nf ∈ tr → nf = true

/-- The Provisioning Context fields other than the image identifier
coincide. -/
def sameContextNoImage (a b : OCICloud) : Prop :=
  a.compartment_id = b.compartment_id ∧
  a.availability_domain = b.availability_domain ∧
  a.subnet_id = b.subnet_id ∧
  a.instance_type = b.instance_type ∧
  a.ssh_private_key_file = b.ssh_private_key_file ∧
  a.timeout = b.timeout

instance (a b : OCICloud) : Decidable (sameContextNoImage a b) := by
  unfold sameContextNoImage
  infer_instance

/-! ### Claims -/

/-- Claim C1 (code behaviour at the failing input): with a subnet
identifier already supplied on the provisioner, `_launch_instance` still
begins creating a fresh network stack — the create-VCN call is issued and
waited on — and then raises before any launch request, never consulting
the supplied subnet.  The claim says no Network Stack resource is created
and the launch request targets the supplied subnet. -/
theorem C1_launch_ignores_supplied_subnet :
    OCICloud._launch_instance envBase { cloud1 with subnet_id := some "ocid1.subnet.supplied" } =
      (.error (.attributeError "str object has no attribute compartment_id"),
       { cloud1 with subnet_id := some "ocid1.subnet.supplied" },
       [.create_vcn { cidr_block := "10.0.0.0/29"
                      display_name := "oci-ipa-test-x-vnet"
                      compartment_id := some "comp-1" },
        .wait_until "vcn" "vcn-1" "AVAILABLE" false]) := by
  decide

/-- Claim C2 (code behaviour at the failing input): on a launch with no
subnet supplied, the VCN is created and reaches `AVAILABLE`, but the
subnet-creation step raises `AttributeError` — the call site passes
`(vcn, availability_domain)` into `_create_subnet(availability_domain,
vcn, ...)`, so the body reads `compartment_id` off the availability
domain string — and neither subnet, gateway nor route rule is ever
created. -/
theorem C2_subnet_step_raises :
    OCICloud._launch_instance envBase cloud1 =
      (.error (.attributeError "str object has no attribute compartment_id"), cloud1,
       [.create_vcn { cidr_block := "10.0.0.0/29"
                      display_name := "oci-ipa-test-x-vnet"
                      compartment_id := some "comp-1" },
        .wait_until "vcn" "vcn-1" "AVAILABLE" false]) := by
  decide

/-- Claim C3 (code behaviour at the failing input): terminating an
instance with an attachment whose subnet data carries the matching
display name `<instance-name>-subnet` raises `AttributeError` —
`_get_subnet` returns the raw response, which has no `display_name` — so
after the instance termination wait no route rule is cleared and no
gateway, subnet or VCN is deleted.  The second conjunct shows the subnet
data would indeed have matched. -/
theorem C3_teardown_never_runs :
    OCICloud._terminate_instance envAttach cloud1 =
      (.error (.attributeError "Response object has no attribute display_name"), cloud1,
       [.terminate_instance "i-1", .wait_until "instance" "i-1" "TERMINATED" true]) ∧
    (OCICloud._get_subnet envAttach "sub-1").data.display_name =
      inst1.display_name ++ "-subnet" := by
  constructor
  · decide
  · decide

/-- Claim C6 (code behaviour at the failing input): with a locatable
instance, `_start_instance` and `_stop_instance` raise `AttributeError` —
the instance data model has no `instance_action` method — so no lifecycle
action is issued and no RUNNING/STOPPED wait occurs; with an unlocatable
instance both raise the `not found` exception, which is the half of the
claim that holds. -/
theorem C6_start_stop_raise :
    OCICloud._start_instance envBase cloud1 =
      (.error (.attributeError "Instance object has no attribute instance_action"),
       cloud1, []) ∧
    OCICloud._stop_instance envBase cloud1 =
      (.error (.attributeError "Instance object has no attribute instance_action"),
       cloud1, []) ∧
    OCICloud._start_instance envBase { cloud1 with running_instance_id := "i-404" } =
      (.error (.cloudException "Instance with ID: i-404 not found."),
       { cloud1 with running_instance_id := "i-404" }, []) := by
  refine ⟨by decide, by decide, by decide⟩

/-- Claim C8, counterexample: constructing with availability domain and
SSH key present but with no compartment identifier and no subnet
identifier anywhere succeeds — no `ProvisionError` is raised; the two
identifiers are simply stored as absent.  The claim says a missing
compartment or subnet raises. -/
theorem C8_counterexample :
    OCICloud.init
      { availability_domain := some "AD-1"
        compartment_id := none
        subnet_id := none
        ssh_private_key_file := some "/root/.ssh/key"
        ssh_user := none
        instance_type := none
        image_id := none
        timeout := 600
        running_instance_id := "" }
      { availability_domain := none
        compartment_id := none
        subnet_id := none
        ssh_private_key_file := none } =
    .ok
      { availability_domain := "AD-1"
        ssh_user := "opc"
        compartment_id := none
        subnet_id := none
        ssh_private_key_file := "/root/.ssh/key"
        instance_type := none
        image_id := none
        timeout := 600
        running_instance_id := ""
        instance_ip := none } := by
  decide

/-- Claim C8 (amended): construction raises exactly when the availability
domain or the SSH private key file resolves to nothing from argument and
configuration; a missing compartment or subnet identifier never raises. -/
theorem C8_required_config_amended :
    ∀ (args : InitArgs) (cfg : IpaConfig),
      (∃ e, OCICloud.init args cfg = .error e) ↔
        ((args.availability_domain <|> cfg.availability_domain) = none ∨
         (args.ssh_private_key_file <|> cfg.ssh_private_key_file) = none) := by
  intro args cfg
  unfold OCICloud.init
  rcases h1 : args.availability_domain <|> cfg.availability_domain with _ | ad
  · simp
  · rcases h2 : args.ssh_private_key_file <|> cfg.ssh_private_key_file with _ | key
    · simp
    · simp

/-- Claim C10: every failure of the provider's get-instance call, of any
kind, is surfaced by `_get_instance` as the single exception
`Instance with ID: <id> not found.`, so callers cannot distinguish a
missing instance from any other lookup failure. -/
theorem C10_lookup_failure_single_error :
    ∀ (env : CloudEnv) (self : OCICloud) (e : String),
      env.get_instance self.running_instance_id = .error e →
      OCICloud._get_instance env self =
        .error (.cloudException
          ("Instance with ID: " ++ self.running_instance_id ++ " not found.")) := by
  intro env self e h
  unfold OCICloud._get_instance
  rw [h]

/-- Witness for C10 at a concrete provider failure. -/
theorem C10_lookup_failure_witness :
    OCICloud._get_instance envBase { cloud1 with running_instance_id := "i-404" } =
      .error (.cloudException "Instance with ID: i-404 not found.") :=
  C10_lookup_failure_single_error envBase
    { cloud1 with running_instance_id := "i-404" } "service error" (by decide)

/-- Attachments whose VNICs expose no address are skipped by the address
scan. -/
theorem find_attachment_ip_append (env : CloudEnv) (pre l : List VnicAttachment)
    (h : ∀ b ∈ pre, no_address env b) :
    find_attachment_ip env (pre ++ l) = find_attachment_ip env l := by
  induction pre with
  | nil => rfl
  | cons b rest ih =>
    obtain ⟨h1, h2⟩ := h b (by simp)
    simp only [List.cons_append, find_attachment_ip, h1, h2, Option.none_orElse]
    exact ih fun x hx => h x (by simp [hx])

/-- If no attachment exposes an address the scan yields nothing. -/
theorem find_attachment_ip_none (env : CloudEnv) (l : List VnicAttachment)
    (h : ∀ b ∈ l, no_address env b) : find_attachment_ip env l = none := by
  have h0 := find_attachment_ip_append env l [] h
  simpa using h0

/-- The address scan picks the first attachment whose VNIC exposes an
address and returns its public address, else its private one. -/
theorem find_attachment_ip_eq_find (env : CloudEnv) (l : List VnicAttachment) :
    find_attachment_ip env l =
      (l.find? (has_address env)).bind
        (fun a => (env.get_vnic a.vnic_id).public_ip <|> (env.get_vnic a.vnic_id).private_ip) := by
  induction l with
  | nil => rfl
  | cons a rest ih =>
    rcases hv : (env.get_vnic a.vnic_id).public_ip <|> (env.get_vnic a.vnic_id).private_ip
      with _ | v
    · have ha : has_address env a = false := by
        unfold has_address
        rw [hv]
        rfl
      simp [find_attachment_ip, hv, List.find?, ha, ih]
    · have ha : has_address env a = true := by
        unfold has_address
        rw [hv]
        rfl
      simp [find_attachment_ip, hv, List.find?, ha]

/-- Evaluation of `_set_instance_ip` once the instance lookup succeeds:
the cached address becomes the scan result, or the address-not-found
exception is raised. -/
theorem set_instance_ip_run (env : CloudEnv) (self : OCICloud) (inst : Instance)
    (hinst : env.get_instance self.running_instance_id = .ok inst) :
    OCICloud._set_instance_ip env self =
      match find_attachment_ip env
          (env.list_vnic_attachments inst.compartment_id inst.id) with
      | some address => (.ok (), { self with instance_ip := some address }, [])
      | none => (.error AddressNotFoundError, { self with instance_ip := none }, []) := by
  unfold OCICloud._set_instance_ip OCICloud._get_instance OCICloud._get_vnic_attachments
  rw [hinst]
  rcases hf : find_attachment_ip env (env.list_vnic_attachments inst.compartment_id inst.id)
    with _ | address <;>
    simp [hf, AddressNotFoundError]

/-- Claim C4: address resolution returns the public address when the
resolved attachment (the first one exposing any address) has both a
public and a private address; returns the private address when that
attachment has only a private one; and raises the address-not-found
exception when no attachment exposes either. -/
theorem C4_resolve_address (env : CloudEnv) (self : OCICloud) (inst : Instance)
    (hinst : env.get_instance self.running_instance_id = .ok inst) :
    (∀ pre a rest pub priv,
        env.list_vnic_attachments inst.compartment_id inst.id = pre ++ a :: rest →
        (∀ b ∈ pre, no_address env b) →
        env.get_vnic a.vnic_id = { public_ip := some pub, private_ip := some priv } →
        OCICloud._set_instance_ip env self =
          (.ok (), { self with instance_ip := some pub }, [])) ∧
    (∀ pre a rest priv,
        env.list_vnic_attachments inst.compartment_id inst.id = pre ++ a :: rest →
        (∀ b ∈ pre, no_address env b) →
        env.get_vnic a.vnic_id = { public_ip := none, private_ip := some priv } →
        OCICloud._set_instance_ip env self =
          (.ok (), { self with instance_ip := some priv }, [])) ∧
    ((∀ b ∈ env.list_vnic_attachments inst.compartment_id inst.id, no_address env b) →
        OCICloud._set_instance_ip env self =
          (.error AddressNotFoundError, { self with instance_ip := none }, [])) := by
  refine ⟨?_, ?_, ?_⟩
  · intro pre a rest pub priv hl hpre hv
    rw [set_instance_ip_run env self inst hinst, hl,
        find_attachment_ip_append env pre (a :: rest) hpre]
    simp [find_attachment_ip, hv]
  · intro pre a rest priv hl hpre hv
    rw [set_instance_ip_run env self inst hinst, hl,
        find_attachment_ip_append env pre (a :: rest) hpre]
    simp [find_attachment_ip, hv]
  · intro hall
    rw [set_instance_ip_run env self inst hinst,
        find_attachment_ip_none env _ hall]

/-- Witness for C4 on concrete providers: both addresses on the single
attachment give the public one, a lone private address is returned, and
an attachment with no addresses raises. -/
theorem C4_resolve_address_witness :
    OCICloud._set_instance_ip envBothAddr cloud1 =
      (.ok (), { cloud1 with instance_ip := some "203.0.113.7" }, []) ∧
    OCICloud._set_instance_ip envPrivAddr cloud1 =
      (.ok (), { cloud1 with instance_ip := some "10.0.0.9" }, []) ∧
    OCICloud._set_instance_ip envAttach cloud1 =
      (.error AddressNotFoundError, { cloud1 with instance_ip := none }, []) := by
  refine ⟨?_, ?_, ?_⟩
  · exact (C4_resolve_address envBothAddr cloud1 inst1 (by decide)).1
      [] att1 [] "203.0.113.7" "10.0.0.9" (by decide) (by decide) (by decide)
  · exact (C4_resolve_address envPrivAddr cloud1 inst1 (by decide)).2.1
      [] att1 [] "10.0.0.9" (by decide) (by decide) (by decide)
  · exact (C4_resolve_address envAttach cloud1 inst1 (by decide)).2.2 (by decide)

/-- Claim C5, counterexample: with a first attachment exposing only a
private address and a second attachment exposing a public address,
address resolution returns the first attachment's private address even
though a public address exists on another attachment — the claim's
`first public address found across all attachments` is not what the loop
computes. -/
theorem C5_counterexample :
    OCICloud._set_instance_ip envTwoVnics cloud1 =
      (.ok (), { cloud1 with instance_ip := some "10.0.0.2" }, []) ∧
    (envTwoVnics.get_vnic "vnic-B").public_ip = some "203.0.113.9" ∧
    "vnic-B" ∈ (envTwoVnics.list_vnic_attachments inst1.compartment_id inst1.id).map
        VnicAttachment.vnic_id := by
  refine ⟨by decide, by decide, by decide⟩

/-- Claim C5 (amended): address resolution stops at the first attachment
exposing any address and returns that attachment's public address,
falling back to that same attachment's private address; later
attachments are never consulted, and only when no attachment exposes any
address does resolution fail. -/
theorem C5_first_attachment_wins (env : CloudEnv) (self : OCICloud) (inst : Instance)
    (hinst : env.get_instance self.running_instance_id = .ok inst) :
    OCICloud._set_instance_ip env self =
      match (env.list_vnic_attachments inst.compartment_id inst.id).find?
          (has_address env) with
      | some a =>
        (.ok (),
         { self with instance_ip :=
             (env.get_vnic a.vnic_id).public_ip <|> (env.get_vnic a.vnic_id).private_ip },
         [])
      | none => (.error AddressNotFoundError, { self with instance_ip := none }, []) := by
  rw [set_instance_ip_run env self inst hinst, find_attachment_ip_eq_find]
  rcases h : (env.list_vnic_attachments inst.compartment_id inst.id).find?
      (has_address env) with _ | a
  · rfl
  · have ha : has_address env a = true := List.find?_some h
    unfold has_address at ha
    rcases hv : (env.get_vnic a.vnic_id).public_ip <|> (env.get_vnic a.vnic_id).private_ip
      with _ | v
    · rw [hv] at ha
      simp at ha
    · simp [hv]

/-- Witness for the amended C5 at the two-attachment provider. -/
theorem C5_first_attachment_wins_witness :
    OCICloud._set_instance_ip envTwoVnics cloud1 =
      (.ok (), { cloud1 with instance_ip := some "10.0.0.2" }, []) := by
  rw [C5_first_attachment_wins envTwoVnics cloud1 inst1 (by decide)]
  decide

/-- The swapped call shape: `_create_subnet` with a string in the `vcn`
parameter fails at the first attribute access, issuing no provider call. -/
theorem create_subnet_str (env : CloudEnv) (ad : PyObj) (s dn : String) :
    OCICloud._create_subnet env ad (.str s) dn =
      (.error (.attributeError "str object has no attribute compartment_id"), []) := rfl

/-- Every launch run: the VCN is created and waited on, then the swapped
`_create_subnet` call raises, leaving the provisioner unchanged. -/
theorem launch_run (env : CloudEnv) (self : OCICloud) :
    OCICloud._launch_instance env self =
      (.error (.attributeError "str object has no attribute compartment_id"), self,
       [.create_vcn
          { cidr_block := "10.0.0.0/29"
            display_name := env.generate_instance_name "oci-ipa-test" ++ "-vnet"
            compartment_id := self.compartment_id },
        .wait_until "vcn"
          (env.create_vcn
            { cidr_block := "10.0.0.0/29"
              display_name := env.generate_instance_name "oci-ipa-test" ++ "-vnet"
              compartment_id := self.compartment_id }).id "AVAILABLE" false]) := rfl

/-- `_start_instance` never changes the provisioner object and issues no
mutating or waiting call: it raises before reaching the wait. -/
theorem start_run (env : CloudEnv) (self : OCICloud) :
    (OCICloud._start_instance env self).2 = (self, []) := by
  unfold OCICloud._start_instance
  rcases h : OCICloud._get_instance env self with e | inst <;>
    simp [Instance.instance_action]

/-- `_stop_instance` never changes the provisioner object and issues no
mutating or waiting call: it raises before reaching the wait. -/
theorem stop_run (env : CloudEnv) (self : OCICloud) :
    (OCICloud._stop_instance env self).2 = (self, []) := by
  unfold OCICloud._stop_instance
  rcases h : OCICloud._get_instance env self with e | inst <;>
    simp [Instance.instance_action]

/-- `_terminate_instance` never changes the provisioner object. -/
theorem terminate_cloud_eq (env : CloudEnv) (self : OCICloud) :
    (OCICloud._terminate_instance env self).2.1 = self := by
  unfold OCICloud._terminate_instance
  rcases h : OCICloud._get_instance env self with e | inst
  · rfl
  · rcases hs : terminate_scan env self inst.display_name
        (OCICloud._get_vnic_attachments env inst.compartment_id inst.id) with e' | x
    · simp [hs]
    · rcases x with _ | ⟨sid, vid, gw⟩ <;>
        simp [hs, OCICloud._clear_route_rules, PyObj.default_route_table_id]

/-- The trace of `_terminate_instance` once the instance lookup succeeds:
in every branch it is exactly the terminate call followed by the
TERMINATED wait with `succeed_on_not_found` — the attachment scan either
finds nothing, or raises on the response wrapper, or (were a match ever
reached) the route-rule clearing raises on the VCN id string before any
deletion call. -/
theorem terminate_trace (env : CloudEnv) (self : OCICloud) (inst : Instance)
    (hinst : env.get_instance self.running_instance_id = .ok inst) :
    (OCICloud._terminate_instance env self).2.2 =
      [.terminate_instance self.running_instance_id,
       .wait_until "instance" inst.id "TERMINATED" true] := by
  unfold OCICloud._terminate_instance OCICloud._get_instance
  rw [hinst]
  rcases hs : terminate_scan env self inst.display_name
      (OCICloud._get_vnic_attachments env inst.compartment_id inst.id) with e' | x
  · simp [hs]
  · rcases x with _ | ⟨sid, vid, gw⟩ <;> simp [hs, OCICloud._clear_route_rules,
      PyObj.default_route_table_id]

/-- `_set_instance_ip` issues no mutating or waiting call. -/
theorem set_instance_ip_trace (env : CloudEnv) (self : OCICloud) :
    (OCICloud._set_instance_ip env self).2.2 = [] := by
  unfold OCICloud._set_instance_ip
  rcases h : OCICloud._get_instance env self with e | inst
  · rfl
  · rcases hf : find_attachment_ip env
        (OCICloud._get_vnic_attachments env inst.compartment_id inst.id) with _ | a <;>
      simp [hf]

/-- `_set_image_id` issues no mutating or waiting call. -/
theorem set_image_id_trace (env : CloudEnv) (self : OCICloud) :
    (OCICloud._set_image_id env self).2.2 = [] := by
  unfold OCICloud._set_image_id
  rcases h : OCICloud._get_instance env self with e | inst <;> simp

/-- A trace that is empty trivially satisfies the TERMINATED-wait flag
property. -/
theorem twnf_of_nil {tr : List Event} (h : tr = []) :
    terminated_waits_not_found_ok tr := by
  intro r i nf hmem
  rw [h] at hmem
  simp at hmem

/-- Claim C7: for every deletion — gateway, subnet, VCN, instance — the
subsequent TERMINATED poll carries `succeed_on_not_found`, so finding the
resource already absent completes as success; moreover no operation ever
emits a TERMINATED poll without that flag. -/
theorem C7_deletion_not_found_ok :
    (∀ gid : String,
        Event.wait_until "internet_gateway" gid "TERMINATED" true
          ∈ OCICloud._delete_internet_gateway gid) ∧
    (∀ sid : String,
        Event.wait_until "subnet" sid "TERMINATED" true ∈ OCICloud._delete_subnet sid) ∧
    (∀ vid : String,
        Event.wait_until "vcn" vid "TERMINATED" true ∈ OCICloud._delete_vcn vid) ∧
    (∀ (env : CloudEnv) (self : OCICloud) (inst : Instance),
        env.get_instance self.running_instance_id = .ok inst →
        Event.wait_until "instance" inst.id "TERMINATED" true
          ∈ (OCICloud._terminate_instance env self).2.2) ∧
    (∀ (op : CloudOp) (env : CloudEnv) (self : OCICloud),
        terminated_waits_not_found_ok (run_op op env self).2.2) := by
  refine ⟨?_, ?_, ?_, ?_, ?_⟩
  · intro gid
    simp [OCICloud._delete_internet_gateway]
  · intro sid
    simp [OCICloud._delete_subnet]
  · intro vid
    simp [OCICloud._delete_vcn]
  · intro env self inst hinst
    rw [terminate_trace env self inst hinst]
    simp
  · intro op env self
    cases op with
    | launch =>
      rw [show run_op CloudOp.launch env self = OCICloud._launch_instance env self from rfl,
        launch_run]
      intro r i nf hmem
      simp at hmem
    | start =>
      exact twnf_of_nil (congrArg Prod.snd (start_run env self))
    | stop =>
      exact twnf_of_nil (congrArg Prod.snd (stop_run env self))
    | terminate =>
      show terminated_waits_not_found_ok (OCICloud._terminate_instance env self).2.2
      rcases h : env.get_instance self.running_instance_id with e | inst
      · have htr : (OCICloud._terminate_instance env self).2.2 = [] := by
          unfold OCICloud._terminate_instance OCICloud._get_instance
          rw [h]
        exact twnf_of_nil htr
      · rw [terminate_trace env self inst h]
        intro r i nf hmem
        simp at hmem
        exact hmem.2.2
    | set_instance_ip =>
      exact twnf_of_nil (set_instance_ip_trace env self)
    | set_image_id =>
      exact twnf_of_nil (set_image_id_trace env self)

/-- Witness for C7's conditional conjuncts at the concrete provider. -/
theorem C7_deletion_not_found_ok_witness :
    Event.wait_until "instance" "i-1" "TERMINATED" true
      ∈ (OCICloud._terminate_instance envBase cloud1).2.2 ∧
    terminated_waits_not_found_ok (run_op CloudOp.terminate envBase cloud1).2.2 := by
  constructor
  · have h := C7_deletion_not_found_ok.2.2.2.1 envBase cloud1 inst1 (by decide)
    simpa [inst1] using h
  · exact C7_deletion_not_found_ok.2.2.2.2 CloudOp.terminate envBase cloud1

/-- The Provisioning Context is preserved between equal objects. -/
theorem sameContext_refl (a : OCICloud) : sameContext a a :=
  ⟨rfl, rfl, rfl, rfl, rfl, rfl, rfl⟩

/-- Preserving the whole context preserves the context without the image
identifier. -/
theorem sameContext_to_noImage {a b : OCICloud} (h : sameContext a b) :
    sameContextNoImage a b :=
  ⟨h.1, h.2.1, h.2.2.1, h.2.2.2.1, h.2.2.2.2.2.1, h.2.2.2.2.2.2⟩

/-- `_set_instance_ip` only touches the cached address, never the
context. -/
theorem set_instance_ip_context (env : CloudEnv) (self : OCICloud) :
    sameContext self (OCICloud._set_instance_ip env self).2.1 := by
  unfold OCICloud._set_instance_ip
  rcases h : OCICloud._get_instance env self with e | inst
  · exact sameContext_refl self
  · rcases hf : find_attachment_ip env
        (OCICloud._get_vnic_attachments env inst.compartment_id inst.id) with _ | a <;>
      simp [hf, sameContext]

/-- `_set_image_id` only touches the image identifier. -/
theorem set_image_id_context (env : CloudEnv) (self : OCICloud) :
    sameContextNoImage self (OCICloud._set_image_id env self).2.1 := by
  unfold OCICloud._set_image_id
  rcases h : OCICloud._get_instance env self with e | inst <;>
    simp [sameContextNoImage]

/-- Claim C9, counterexample: resolving the image identifier from an
existing instance (`_set_image_id`) overwrites the Provisioning Context's
image identifier, so the context is not preserved by every operation. -/
theorem C9_counterexample :
    ¬ sameContext cloud1 (run_op CloudOp.set_image_id envBase cloud1).2.1 := by
  decide

/-- Claim C9 (amended): every operation — launch, start, stop, terminate,
address resolution — preserves the whole Provisioning Context; the one
exception is `_set_image_id`, which overwrites the image identifier and
preserves everything else. -/
theorem C9_context_preserved (op : CloudOp) (env : CloudEnv) (self : OCICloud) :
    (op ≠ CloudOp.set_image_id → sameContext self (run_op op env self).2.1) ∧
    sameContextNoImage self (run_op op env self).2.1 := by
  cases op with
  | launch =>
    have hc : (run_op CloudOp.launch env self).2.1 = self := by
      rw [show run_op CloudOp.launch env self = OCICloud._launch_instance env self from rfl,
        launch_run]
    rw [hc]
    exact ⟨fun _ => sameContext_refl self, sameContext_to_noImage (sameContext_refl self)⟩
  | start =>
    have hc : (run_op CloudOp.start env self).2.1 = self :=
      congrArg Prod.fst (start_run env self)
    rw [hc]
    exact ⟨fun _ => sameContext_refl self, sameContext_to_noImage (sameContext_refl self)⟩
  | stop =>
    have hc : (run_op CloudOp.stop env self).2.1 = self :=
      congrArg Prod.fst (stop_run env self)
    rw [hc]
    exact ⟨fun _ => sameContext_refl self, sameContext_to_noImage (sameContext_refl self)⟩
  | terminate =>
    have hc : (run_op CloudOp.terminate env self).2.1 = self :=
      terminate_cloud_eq env self
    rw [hc]
    exact ⟨fun _ => sameContext_refl self, sameContext_to_noImage (sameContext_refl self)⟩
  | set_instance_ip =>
    exact ⟨fun _ => set_instance_ip_context env self,
      sameContext_to_noImage (set_instance_ip_context env self)⟩
  | set_image_id =>
    exact ⟨fun hne => absurd rfl hne, set_image_id_context env self⟩

/-- Witness for the amended C9 at concrete inputs: terminate preserves
the whole context, and `_set_image_id` preserves everything but the
image identifier. -/
theorem C9_context_preserved_witness :
    sameContext cloud1 (run_op CloudOp.terminate envBase cloud1).2.1 ∧
    sameContextNoImage cloud1 (run_op CloudOp.set_image_id envBase cloud1).2.1 :=
  ⟨(C9_context_preserved CloudOp.terminate envBase cloud1).1 (by decide),
   (C9_context_preserved CloudOp.set_image_id envBase cloud1).2⟩

end ImgProof
